import Mathlib

/-!
# A shallow embedding of the `livefile` cache controller

This file models the core of the `livefile` Go package (`statefile.go`,
package `livefile`: `New`, `Peek`, `View`, `Update`, `ensure`,
`loadIfUpdated`, `forceLoad`) and proves the behavioural claims about it.

Modelling choices, each tied to the source:

* The controller state `LiveFile` keeps the fields of the Go struct that
  carry behaviour: `lastModTime` (modelled as a `Nat`), `cached`, the
  `defaultFunc` provider and whether the `onLoaded` callback is configured.
  The path and the mutex are not modelled: the controller binds to a single
  file for its lifetime and all modelled executions are sequential (the
  mutex serialises every operation).
* The backing file (`FileData`) records what the controller can observe of
  it: the outcome of JSON-decoding its byte stream (`Content`: a valid
  document for some value, an empty stream, or undecodable bytes), the size
  reported by `stat`, the modification time, and whether the last write has
  been flushed with `Sync`. `Content` and `size` are independent fields so
  that the race the code handles explicitly — `stat` reporting a nonzero
  size while the stream yields `io.EOF` at offset zero — is representable.
* JSON encoding of the generic value type is abstracted by a `Codec`
  carrying the byte size of each value's indented encoding, together with
  the fact that an indented JSON document is never empty; decoding an
  encoded value yields the value back (`Content.json`), which is the
  losslessness of `encoding/json` on the supported field types.
* The error handler (`errHandler`) is modelled as a returning callback; the
  errors passed to it are accumulated in an `errs` trace. The `onLoaded`
  callback invocations are accumulated in a `loads` trace.
* Fallible collaborator calls surface as explicit data: `loadIfUpdatedGen`
  takes the result of `file.Stat()` as an `Option StatInfo` (`none` models
  a failed stat, whose accompanying `fs.FileInfo` interface value is nil),
  and returns `Except` where the `.error` case models a panic that aborts
  the operation after the listed errors were reported to the handler.
-/

set_option autoImplicit false

namespace LiveFileModel

/-- Errors reported to the Error Policy callback (`errHandler`). -/
inductive Err where
  | statFailed
  | invalidJSON
  deriving DecidableEq

/-- What JSON-decoding the backing file's byte stream yields: a valid
document for a value `v`, an empty stream (`io.EOF` at input offset zero),
or undecodable bytes. -/
inductive Content (T : Type) where
  | json (v : T) : Content T
  | empty : Content T
  | corrupt : Content T
  deriving DecidableEq

/-- Observable state of the backing file: decode outcome of its bytes, the
size and modification time reported by `stat`, and whether the last write
was flushed to storage with `Sync`. -/
structure FileData (T : Type) where
  content : Content T
  size : Nat
  modTime : Nat
  synced : Bool
  deriving DecidableEq

/-- The filesystem as the controller sees it: the file at the controller's
path (or `none` when absent) and whether the parent directory exists. -/
structure World (T : Type) where
  file : Option (FileData T)
  dirOk : Bool
  deriving DecidableEq

/-- Abstraction of the indented-JSON encoder: the byte size of each value's
encoding. A JSON document is never empty, hence the positivity field. -/
structure Codec (T : Type) where
  encSize : T → Nat
  encSize_pos : ∀ v, 0 < encSize v

/-- The controller state (Go struct `LiveFile`): last-known modification
time, the cached value, the default-value provider, and whether the
`onLoaded` callback is configured. -/
structure LiveFile (T : Type) where
  lastModTime : Nat
  cached : T
  defaultFunc : Unit → T
  onLoaded : Bool

/-- Function `New` (src lines 209-230): resolves the path, wires the options, and
sets the cached value to the default. No filesystem operation is performed
at construction, which is why `New` does not take a `World`. The zero
`time.Time` is modelled as `0`. -/
def New {T : Type} (dflt : Unit → T) (onLoaded : Bool) : LiveFile T :=
  { lastModTime := 0, cached := dflt (), defaultFunc := dflt, onLoaded := onLoaded }

/-- Result of an internal load step: the new controller state, the errors
reported to the error handler, and the values passed to `onLoaded`. -/
structure LoadState (T : Type) where
  lf : LiveFile T
  errs : List Err
  loads : List T


/-- Method `forceLoad` (src lines 338-359): seek to the start and JSON-decode the
stream into the cached value. `io.EOF` at input offset zero resets the
cached value to a fresh default and clears the error. On success the
`onLoaded` callback, when configured, receives the loaded value; a decode
failure is reported to the error handler (which returns) and leaves the
cached value as it was. The seek on an open handle succeeds in this model. -/
def forceLoad {T : Type} (lf : LiveFile T) (f : FileData T) : LoadState T :=
  match f.content with
  | .json v =>
      { lf := { lf with cached := v }, errs := [],
        loads := if lf.onLoaded then [v] else [] }
  | .empty =>
      let d := lf.defaultFunc ()
      { lf := { lf with cached := d }, errs := [],
        loads := if lf.onLoaded then [d] else [] }
  | .corrupt => { lf := lf, errs := [Err.invalidJSON], loads := [] }

/-- What `file.Stat()` reports when it succeeds. -/
structure StatInfo where
  size : Nat
  modTime : Nat
  deriving DecidableEq

/-- The honest stat of a file. -/
def FileData.statInfo {T : Type} (f : FileData T) : StatInfo :=
  ⟨f.size, f.modTime⟩

/-- Method `loadIfUpdated` (src lines 321-336) with the result of `file.Stat()`
made explicit. When the stat fails (`none`), the error handler is invoked
with the wrapped stat error; if the handler returns, execution continues to
`stat.Size()` — a method call on the nil `fs.FileInfo` interface value that
accompanies a stat error — which panics. The `.error` result models that
panic, carrying the errors reported before it. When the stat succeeds: a
zero size means no content yet (no reload); a modification time strictly
after `lastModTime` triggers `forceLoad` and adopts the new time; otherwise
the cached value is already current. -/
def loadIfUpdatedGen {T : Type} (lf : LiveFile T) (f : FileData T)
    (statRes : Option StatInfo) : Except (List Err) (LoadState T) :=
  match statRes with
  | none => .error [Err.statFailed]
  | some stat =>
      if stat.size = 0 then .ok ⟨lf, [], []⟩
      else if lf.lastModTime < stat.modTime then
        let r := forceLoad lf f
        .ok ⟨{ r.lf with lastModTime := stat.modTime }, r.errs, r.loads⟩
      else .ok ⟨lf, [], []⟩

/-- Method `loadIfUpdated` (src lines 321-336) in the run where the stat on the
open handle succeeds, as it does for every handle the controller itself
opens in the modelled executions. -/
def loadIfUpdated {T : Type} (lf : LiveFile T) (f : FileData T) : LoadState T :=
  if f.size = 0 then ⟨lf, [], []⟩
  else if lf.lastModTime < f.modTime then
    let r := forceLoad lf f
    ⟨{ r.lf with lastModTime := f.modTime }, r.errs, r.loads⟩
  else ⟨lf, [], []⟩

/-- Method `ensure` (src lines 309-319): open the file read-only; a missing file
is not an error and leaves everything untouched; otherwise run
`loadIfUpdated` on the handle and close it. No write occurs. -/
def ensure {T : Type} (lf : LiveFile T) (w : World T) : LoadState T :=
  match w.file with
  | none => ⟨lf, [], []⟩
  | some f => loadIfUpdated lf f

/-- Result of a read entry point: the value handed to the caller, the new
controller state, the filesystem (returned unchanged: these operations only
open the file read-only and close it), and the two traces. -/
structure ViewOut (T : Type) where
  value : T
  lf : LiveFile T
  w : World T
  errs : List Err
  loads : List T

/-- Method `Peek` (src lines 301-307): lock, ensure freshness, return a copy of
the cached value, unlock. -/
def Peek {T : Type} (lf : LiveFile T) (w : World T) : ViewOut T :=
  let r := ensure lf w
  ⟨r.lf.cached, r.lf, w, r.errs, r.loads⟩

/-- Method `View` (src lines 236-242): lock, ensure freshness, invoke the caller's
function with a reference to the cached value (the `value` field is what
the function observes; by contract it does not mutate it), unlock. -/
def View {T : Type} (lf : LiveFile T) (w : World T) : ViewOut T :=
  let r := ensure lf w
  ⟨r.lf.cached, r.lf, w, r.errs, r.loads⟩

/-- The open-or-create step of `Update` (src lines 254-265): `OpenFile`
with `O_RDWR|O_CREATE`. An existing file is opened as is. When the file is
absent it is created empty — via `MkdirAll` on the parent first when the
first open fails with `ErrNotExist`; the retry after `MkdirAll` yields the
same created file, so both create paths collapse here — with the current
time as its modification time. -/
def openCreate {T : Type} (w : World T) (now : Nat) : FileData T × World T :=
  match w.file with
  | some f => (f, w)
  | none =>
      let f : FileData T := { content := .empty, size := 0, modTime := now, synced := false }
      (f, { file := some f, dirOk := true })

/-- Result of `Update`: the error returned to the caller (`none` on
success), the new controller state, the new filesystem state, and the two
traces. -/
structure UpdateOut (T : Type) (E : Type) where
  err : Option E
  lf : LiveFile T
  w : World T
  errs : List Err
  loads : List T

/-- Method `Update` (src lines 248-298): lock; ensure freshness; open (creating
parents and the file if absent); re-check freshness against the open
handle; apply the caller's function to the cached value (the function
mutates the value in place and reports success with `none` or failure with
`some e`). On failure, roll back with `forceLoad` from the still-open
handle and return the failure. On success, truncate the file, encode the
value as indented JSON from the start (the resulting file holds exactly the
new document), `Sync` it, re-stat, and adopt the new modification time.
`now` is the clock the filesystem stamps the write with. -/
def Update {T E : Type} (c : Codec T) (lf : LiveFile T) (w : World T) (now : Nat)
    (fn : T → T × Option E) : UpdateOut T E :=
  let r1 := ensure lf w
  let fw := openCreate w now
  let r2 := loadIfUpdated r1.lf fw.1
  let fv := fn r2.lf.cached
  let lf3 := { r2.lf with cached := fv.1 }
  match fv.2 with
  | some e =>
      let r3 := forceLoad lf3 fw.1
      ⟨some e, r3.lf, fw.2, r1.errs ++ r2.errs ++ r3.errs,
        r1.loads ++ r2.loads ++ r3.loads⟩
  | none =>
      let f2 : FileData T :=
        { content := .json fv.1, size := c.encSize fv.1, modTime := now, synced := true }
      ⟨none, { lf3 with lastModTime := now }, { fw.2 with file := some f2 },
        r1.errs ++ r2.errs, r1.loads ++ r2.loads⟩

/-- The value a rollback (`forceLoad`) restores from a file, given the
default: the decoded document, the default for an empty stream, and
nothing when the bytes do not decode. -/
def FileData.rollbackValue {T : Type} (f : FileData T) (d : T) : Option T :=
  match f.content with
  | .json v => some v
  | .empty => some d
  | .corrupt => none

/-- The value a rollback restores given the whole filesystem: an absent
file is created empty by `Update`'s open, so it restores the default. -/
def rollbackTarget {T : Type} (w : World T) (d : T) : Option T :=
  match w.file with
  | none => some d
  | some f => f.rollbackValue d

/-! ## Supporting lemmas -/

section Lemmas

variable {T : Type}

/-- The two readings of `loadIfUpdated` agree when the stat succeeds. -/
theorem loadIfUpdatedGen_statOk (lf : LiveFile T) (f : FileData T) :
    loadIfUpdatedGen lf f (some f.statInfo) = .ok (loadIfUpdated lf f) := by
  simp only [loadIfUpdatedGen, loadIfUpdated, FileData.statInfo]
  split <;> [rfl; split <;> rfl]

@[simp] theorem forceLoad_lastModTime (lf : LiveFile T) (f : FileData T) :
    (forceLoad lf f).lf.lastModTime = lf.lastModTime := by
  unfold forceLoad; cases f.content <;> rfl

@[simp] theorem forceLoad_defaultFunc (lf : LiveFile T) (f : FileData T) :
    (forceLoad lf f).lf.defaultFunc = lf.defaultFunc := by
  unfold forceLoad; cases f.content <;> rfl

@[simp] theorem forceLoad_onLoaded (lf : LiveFile T) (f : FileData T) :
    (forceLoad lf f).lf.onLoaded = lf.onLoaded := by
  unfold forceLoad; cases f.content <;> rfl

/-- When the file's bytes decode (or the stream is empty), `forceLoad`
restores exactly the rollback value, reports nothing to the error handler,
and fires `onLoaded` with the restored value when configured. -/
theorem forceLoad_of_rollbackValue (lf : LiveFile T) (f : FileData T) (r : T)
    (h : f.rollbackValue (lf.defaultFunc ()) = some r) :
    (forceLoad lf f).lf.cached = r ∧ (forceLoad lf f).errs = [] ∧
      (forceLoad lf f).loads = if lf.onLoaded then [r] else [] := by
  unfold forceLoad
  unfold FileData.rollbackValue at h
  cases hc : f.content <;> rw [hc] at h <;> simp_all

theorem loadIfUpdated_mono (lf : LiveFile T) (f : FileData T) :
    lf.lastModTime ≤ (loadIfUpdated lf f).lf.lastModTime := by
  unfold loadIfUpdated
  split
  · exact le_refl _
  · split
    · next h => simpa using Nat.le_of_lt h
    · exact le_refl _

@[simp] theorem loadIfUpdated_defaultFunc (lf : LiveFile T) (f : FileData T) :
    (loadIfUpdated lf f).lf.defaultFunc = lf.defaultFunc := by
  unfold loadIfUpdated
  split
  · rfl
  · split <;> simp

@[simp] theorem loadIfUpdated_onLoaded (lf : LiveFile T) (f : FileData T) :
    (loadIfUpdated lf f).lf.onLoaded = lf.onLoaded := by
  unfold loadIfUpdated
  split
  · rfl
  · split <;> simp

/-- After one `loadIfUpdated` on a nonempty file, `lastModTime` is at least
the file's modification time. -/
theorem loadIfUpdated_modTime_le (lf : LiveFile T) (f : FileData T) (hs : f.size ≠ 0) :
    f.modTime ≤ (loadIfUpdated lf f).lf.lastModTime := by
  unfold loadIfUpdated
  rw [if_neg hs]
  split
  · simp
  · next h => simpa using Nat.le_of_not_lt h

/-- A second `loadIfUpdated` against the same file is a no-op: the first
run has already adopted the file's modification time (or the file has no
content). This is why the re-check inside `Update`, right after `ensure`,
does nothing when the file did not change in between. -/
theorem loadIfUpdated_idem (lf : LiveFile T) (f : FileData T) :
    loadIfUpdated (loadIfUpdated lf f).lf f = ⟨(loadIfUpdated lf f).lf, [], []⟩ := by
  by_cases hs : f.size = 0
  · conv_lhs => rw [loadIfUpdated]
    rw [if_pos hs]
  · have hmt := loadIfUpdated_modTime_le lf f hs
    conv_lhs => rw [loadIfUpdated]
    rw [if_neg hs, if_neg (Nat.not_lt.mpr hmt)]

theorem ensure_none (lf : LiveFile T) (w : World T) (hf : w.file = none) :
    ensure lf w = ⟨lf, [], []⟩ := by
  unfold ensure; rw [hf]

theorem ensure_some (lf : LiveFile T) (w : World T) (f : FileData T)
    (hf : w.file = some f) : ensure lf w = loadIfUpdated lf f := by
  unfold ensure; rw [hf]

theorem openCreate_none (w : World T) (now : Nat) (hf : w.file = none) :
    openCreate w now =
      (⟨Content.empty, 0, now, false⟩,
        ⟨some ⟨Content.empty, 0, now, false⟩, true⟩) := by
  unfold openCreate; rw [hf]

theorem openCreate_some (w : World T) (now : Nat) (f : FileData T)
    (hf : w.file = some f) : openCreate w now = (f, w) := by
  unfold openCreate; rw [hf]

/-- Freshness ensure never decreases `lastModTime`. -/
theorem ensure_mono (lf : LiveFile T) (w : World T) :
    lf.lastModTime ≤ (ensure lf w).lf.lastModTime := by
  unfold ensure
  cases w.file
  · exact le_refl _
  · exact loadIfUpdated_mono _ _

@[simp] theorem ensure_defaultFunc (lf : LiveFile T) (w : World T) :
    (ensure lf w).lf.defaultFunc = lf.defaultFunc := by
  unfold ensure; cases w.file <;> simp

@[simp] theorem ensure_onLoaded (lf : LiveFile T) (w : World T) :
    (ensure lf w).lf.onLoaded = lf.onLoaded := by
  unfold ensure; cases w.file <;> simp

/-- The re-check `Update` performs against the handle it opened is a no-op
right after `ensure`: either the handle is the same unchanged file, or it
is the freshly created empty file. -/
theorem ensure_then_load (lf : LiveFile T) (w : World T) (now : Nat) :
    loadIfUpdated (ensure lf w).lf (openCreate w now).1 =
      ⟨(ensure lf w).lf, [], []⟩ := by
  unfold ensure openCreate
  cases hf : w.file with
  | none => simp [loadIfUpdated]
  | some f => exact loadIfUpdated_idem lf f

/-- Under coherence of cache and disk, an `ensure` leaves the cached value
as it is and reports nothing: a reload, when it fires, decodes the very
value that is already cached (or the default for an empty stream). -/
theorem ensure_coherent (lf : LiveFile T) (w : World T)
    (hcoh : rollbackTarget w (lf.defaultFunc ()) = some lf.cached) :
    (ensure lf w).lf.cached = lf.cached ∧ (ensure lf w).errs = [] := by
  cases hf : w.file with
  | none => rw [ensure_none lf w hf]; exact ⟨rfl, rfl⟩
  | some f =>
      rw [ensure_some lf w f hf]
      rw [rollbackTarget, hf] at hcoh
      have h := forceLoad_of_rollbackValue lf f lf.cached hcoh
      unfold loadIfUpdated
      by_cases hs : f.size = 0
      · rw [if_pos hs]; exact ⟨rfl, rfl⟩
      · rw [if_neg hs]
        by_cases hm : lf.lastModTime < f.modTime
        · rw [if_pos hm]; exact ⟨h.1, h.2.1⟩
        · rw [if_neg hm]; exact ⟨rfl, rfl⟩

/-- The rollback target is unchanged by `Update`'s open-or-create step: the
file it creates when absent is empty, and an empty file restores the
default, exactly as an absent one does. -/
theorem rollbackTarget_openCreate (w : World T) (now : Nat) (d : T) :
    rollbackTarget (openCreate w now).2 d = rollbackTarget w d := by
  cases hf : w.file with
  | none => rw [openCreate_none w now hf, rollbackTarget, rollbackTarget, hf]; rfl
  | some f => rw [openCreate_some w now f hf]

/-- Unfolding `Update` with a function that fails on the value it is given, unfolded:
the initial `ensure` runs, the re-check against the open handle is a no-op,
the caller's mutation is applied and then rolled back with `forceLoad` from
the handle, and the caller's error is returned. -/
theorem Update_eq_of_fail {E : Type} (c : Codec T) (lf : LiveFile T) (w : World T)
    (now : Nat) (fn : T → T × Option E) (e : E)
    (h : (fn ((ensure lf w).lf.cached)).2 = some e) :
    Update c lf w now fn =
      ⟨some e,
        (forceLoad { (ensure lf w).lf with cached := (fn ((ensure lf w).lf.cached)).1 }
          (openCreate w now).1).lf,
        (openCreate w now).2,
        (ensure lf w).errs ++
          (forceLoad { (ensure lf w).lf with cached := (fn ((ensure lf w).lf.cached)).1 }
            (openCreate w now).1).errs,
        (ensure lf w).loads ++
          (forceLoad { (ensure lf w).lf with cached := (fn ((ensure lf w).lf.cached)).1 }
            (openCreate w now).1).loads⟩ := by
  simp only [Update, ensure_then_load, h, List.append_nil, List.nil_append]

/-- Unfolding `Update` with a function that succeeds on the value it is given,
unfolded: the initial `ensure` runs, the re-check is a no-op, the mutated
value is committed as an indented JSON document of its encoded size, the
file is synced, and the write's timestamp is adopted. -/
theorem Update_eq_of_succeed {E : Type} (c : Codec T) (lf : LiveFile T) (w : World T)
    (now : Nat) (fn : T → T × Option E)
    (h : (fn ((ensure lf w).lf.cached)).2 = none) :
    Update c lf w now fn =
      ⟨none,
        ⟨now, (fn ((ensure lf w).lf.cached)).1,
          (ensure lf w).lf.defaultFunc, (ensure lf w).lf.onLoaded⟩,
        { (openCreate w now).2 with
            file := some ⟨Content.json ((fn ((ensure lf w).lf.cached)).1),
              c.encSize ((fn ((ensure lf w).lf.cached)).1), now, true⟩ },
        (ensure lf w).errs, (ensure lf w).loads⟩ := by
  simp only [Update, ensure_then_load, h, List.append_nil, List.nil_append]

/-- The state after a failed update, when the on-disk contents (or the
default, for an empty or absent file) give back a rollback value `r`: the
caller's error is returned, the cache holds `r`, `lastModTime` is whatever
the initial `ensure` left, nothing beyond the `ensure` is reported to the
error handler, and the rollback fires `onLoaded` with `r` when configured. -/
theorem update_failure_state {E : Type} (c : Codec T) (lf : LiveFile T)
    (w : World T) (now : Nat) (fn : T → T × Option E) (e : E) (r : T)
    (hfn : (fn ((ensure lf w).lf.cached)).2 = some e)
    (hr : rollbackTarget w (lf.defaultFunc ()) = some r) :
    (Update c lf w now fn).err = some e ∧
    (Update c lf w now fn).lf.cached = r ∧
    (Update c lf w now fn).lf.defaultFunc = lf.defaultFunc ∧
    (Update c lf w now fn).lf.onLoaded = lf.onLoaded ∧
    (Update c lf w now fn).lf.lastModTime = (ensure lf w).lf.lastModTime ∧
    (Update c lf w now fn).w = (openCreate w now).2 ∧
    (Update c lf w now fn).errs = (ensure lf w).errs ∧
    (Update c lf w now fn).loads =
      (ensure lf w).loads ++ (if lf.onLoaded then [r] else []) := by
  rw [Update_eq_of_fail c lf w now fn e hfn]
  set lf3 : LiveFile T :=
    { (ensure lf w).lf with cached := (fn ((ensure lf w).lf.cached)).1 } with hlf3
  have hdf : lf3.defaultFunc = lf.defaultFunc := by rw [hlf3]; simp
  have hol : lf3.onLoaded = lf.onLoaded := by rw [hlf3]; simp
  have hrv : (openCreate w now).1.rollbackValue (lf3.defaultFunc ()) = some r := by
    rw [hdf]
    cases hf : w.file with
    | none =>
        rw [openCreate_none w now hf]
        rw [rollbackTarget, hf] at hr
        exact hr
    | some f =>
        rw [openCreate_some w now f hf]
        rw [rollbackTarget, hf] at hr
        exact hr
  have hfl := forceLoad_of_rollbackValue lf3 (openCreate w now).1 r hrv
  refine ⟨rfl, hfl.1, ?_, ?_, ?_, rfl, ?_, ?_⟩
  · rw [forceLoad_defaultFunc, hdf]
  · rw [forceLoad_onLoaded, hol]
  · rw [forceLoad_lastModTime, hlf3]
  · rw [hfl.2.1, List.append_nil]
  · rw [hfl.2.2, hol]

end Lemmas

/-! ## The claims -/

section Claims

/-- C3: constructing a controller over a path with no backing file, with
default-value provider `dflt`, performs no file I/O at construction (`New`
does not interact with the `World` at all), an immediately following
snapshot (`Peek`) returns the default, and neither snapshot nor read-only
view creates the file on disk. -/
theorem C3_new_peek_default {T : Type} (dflt : Unit → T) (b : Bool) (w : World T)
    (hw : w.file = none) :
    (Peek (New dflt b) w).value = dflt () ∧ (Peek (New dflt b) w).w = w ∧
      (View (New dflt b) w).w = w := by
  refine ⟨?_, rfl, rfl⟩
  show (ensure (New dflt b) w).lf.cached = dflt ()
  rw [ensure_none _ _ hw]
  rfl

/-- Witness for C3 at a concrete input: a fresh controller with default 42
over an absent file snapshots to 42. -/
theorem C3_witness :
    (Peek (New (fun _ => (42 : Nat)) false) ⟨none, true⟩).value = 42 :=
  (C3_new_peek_default (fun _ => (42 : Nat)) false ⟨none, true⟩ rfl).1

/-- C4: the freshness-ensure routine: an absent backing file leaves the
cached value unchanged and raises no error; an existing file of size zero
causes no reload; a modification time strictly after `lastModTime` decodes
the entire contents into the cached value and adopts the file's
modification time; otherwise the state is left untouched. -/
theorem C4_ensure_cases {T : Type} (lf : LiveFile T) (w : World T)
    (f : FileData T) (v : T) :
    (w.file = none → ensure lf w = ⟨lf, [], []⟩) ∧
    (w.file = some f → f.size = 0 → ensure lf w = ⟨lf, [], []⟩) ∧
    (w.file = some f → f.size ≠ 0 → lf.lastModTime < f.modTime →
      f.content = Content.json v →
      (ensure lf w).lf.cached = v ∧ (ensure lf w).lf.lastModTime = f.modTime) ∧
    (w.file = some f → ¬ lf.lastModTime < f.modTime → (ensure lf w).lf = lf) := by
  refine ⟨fun hf => ensure_none lf w hf, fun hf hs => ?_,
    fun hf hs hm hc => ?_, fun hf hm => ?_⟩
  · rw [ensure_some lf w f hf]
    unfold loadIfUpdated
    rw [if_pos hs]
  · rw [ensure_some lf w f hf]
    unfold loadIfUpdated
    rw [if_neg hs, if_pos hm]
    refine ⟨?_, rfl⟩
    show (forceLoad lf f).lf.cached = v
    unfold forceLoad
    rw [hc]
  · rw [ensure_some lf w f hf]
    unfold loadIfUpdated
    by_cases hs : f.size = 0
    · rw [if_pos hs]
    · rw [if_neg hs, if_neg hm]

/-- Witness for C4 at a concrete input: a nonempty file with a newer
modification time and document 9 is decoded into the cache. -/
theorem C4_witness :
    (ensure (⟨0, 5, fun _ => 5, false⟩ : LiveFile Nat)
      ⟨some ⟨Content.json 9, 3, 2, true⟩, true⟩).lf.cached = 9 :=
  ((C4_ensure_cases ⟨0, 5, fun _ => 5, false⟩ ⟨some ⟨Content.json 9, 3, 2, true⟩, true⟩
    ⟨Content.json 9, 3, 2, true⟩ 9).2.2.1 rfl (by decide) (by decide) rfl).1

/-- C5: during a reload, decoding that reports end-of-input at input
offset zero (the stream produced nothing despite a nonzero size reported
by stat) resets the cached value to a freshly produced default, and the
operation succeeds — nothing is reported to the Error Policy. -/
theorem C5_empty_stream_resets_default {T : Type} (lf : LiveFile T) (w : World T)
    (f : FileData T) (hw : w.file = some f) (hs : f.size ≠ 0)
    (hm : lf.lastModTime < f.modTime) (hc : f.content = Content.empty) :
    (ensure lf w).lf.cached = lf.defaultFunc () ∧ (ensure lf w).errs = [] ∧
      (ensure lf w).lf.lastModTime = f.modTime := by
  rw [ensure_some lf w f hw]
  unfold loadIfUpdated
  rw [if_neg hs, if_pos hm]
  have h : f.rollbackValue (lf.defaultFunc ()) = some (lf.defaultFunc ()) := by
    unfold FileData.rollbackValue
    rw [hc]
  have h2 := forceLoad_of_rollbackValue lf f _ h
  exact ⟨h2.1, h2.2.1, rfl⟩

/-- Witness for C5 at a concrete input: stat size 4 but empty stream; the
cache is reset to the default 3 with no error reported. -/
theorem C5_witness :
    (ensure (⟨0, 7, fun _ => 3, false⟩ : LiveFile Nat)
      ⟨some ⟨Content.empty, 4, 1, true⟩, true⟩).lf.cached = 3 :=
  (C5_empty_stream_resets_default ⟨0, 7, fun _ => 3, false⟩
    ⟨some ⟨Content.empty, 4, 1, true⟩, true⟩ ⟨Content.empty, 4, 1, true⟩
    rfl (by decide) (by decide) rfl).1

/-- C6 (evaluating the code at the failing input): when `file.Stat()`
fails inside `loadIfUpdated` and the error handler returns, the stat error
is reported to the Error Policy and the routine then panics — `stat.Size()`
is a method call on the nil `fs.FileInfo` interface value that accompanies
the error — rather than treating the failed stat as "no reload possible
this round" and completing without crashing. -/
theorem C6_stat_failure_panics {T : Type} (lf : LiveFile T) (f : FileData T) :
    loadIfUpdatedGen lf f none = Except.error [Err.statFailed] := rfl

/-- C2: a transactional update whose caller function returns success
serializes the cached value as indented JSON by truncating the file and
encoding the full value from offset zero, leaves the write durably flushed
(`synced = true`) before the handle is closed, adopts the post-write
modification time as `lastModTime`, and returns success. -/
theorem C2_update_success_commits {T E : Type} (c : Codec T) (lf : LiveFile T)
    (w : World T) (now : Nat) (g : T → T) :
    (Update c lf w now (fun s => (g s, (none : Option E)))).err = none ∧
    (Update c lf w now (fun s => (g s, (none : Option E)))).lf.cached =
      g (Peek lf w).value ∧
    (Update c lf w now (fun s => (g s, (none : Option E)))).w.file =
      some ⟨Content.json (g (Peek lf w).value),
        c.encSize (g (Peek lf w).value), now, true⟩ ∧
    (Update c lf w now (fun s => (g s, (none : Option E)))).lf.lastModTime = now := by
  rw [Update_eq_of_succeed c lf w now (fun s => (g s, (none : Option E))) rfl]
  exact ⟨rfl, rfl, rfl, rfl⟩

/-- C9: a transactional update over a previously absent path creates the
parent directories and the backing file as a side effect of opening it for
read-write, even when the caller's function then fails: after the failed
update an empty file exists at the path though no content was written. -/
theorem C9_failed_update_creates_empty_file {T E : Type} (c : Codec T)
    (lf : LiveFile T) (w : World T) (now : Nat) (g : T → T) (e : E)
    (hw : w.file = none) :
    (Update c lf w now (fun s => (g s, some e))).err = some e ∧
    (Update c lf w now (fun s => (g s, some e))).w.file =
      some ⟨Content.empty, 0, now, false⟩ ∧
    (Update c lf w now (fun s => (g s, some e))).w.dirOk = true := by
  rw [Update_eq_of_fail c lf w now (fun s => (g s, some e)) e rfl,
    openCreate_none w now hw]
  exact ⟨rfl, rfl, rfl⟩

/-- Witness for C9 at a concrete input: a failed update over an absent
file leaves an empty file with the creation timestamp on disk. -/
theorem C9_witness :
    (Update (⟨fun _ => 1, fun _ => Nat.one_pos⟩ : Codec Nat)
      (New (fun _ => (0 : Nat)) false) ⟨none, false⟩ 5
      (fun s => (s + 1, some ()))).w.file = some ⟨Content.empty, 0, 5, false⟩ :=
  (C9_failed_update_creates_empty_file ⟨fun _ => 1, fun _ => Nat.one_pos⟩
    (New (fun _ => (0 : Nat)) false) ⟨none, false⟩ 5 (fun s => s + 1) () rfl).2.1

/-- C10: the Post-Load Observer, when configured, is also invoked during
the rollback of a failed transactional update: the rollback re-decodes the
on-disk contents and, on successful decode (including the empty-file
default substitution), fires the observer with the restored value before
the update call returns. -/
theorem C10_rollback_fires_observer {T E : Type} (c : Codec T) (lf : LiveFile T)
    (w : World T) (now : Nat) (g : T → T) (e : E) (r : T)
    (hol : lf.onLoaded = true)
    (hr : rollbackTarget w (lf.defaultFunc ()) = some r) :
    (Update c lf w now (fun s => (g s, some e))).lf.cached = r ∧
    (Update c lf w now (fun s => (g s, some e))).loads.getLast? = some r := by
  have h := update_failure_state c lf w now (fun s => (g s, some e)) e r rfl hr
  refine ⟨h.2.1, ?_⟩
  rw [h.2.2.2.2.2.2.2, hol, if_pos rfl, List.getLast?_append_cons]
  rfl

/-- Witness for C10 at a concrete input: rolling back over a file holding
the document 8 fires the observer with 8, last among the load events. -/
theorem C10_witness :
    (Update (⟨fun _ => 1, fun _ => Nat.one_pos⟩ : Codec Nat)
      (⟨9, 8, fun _ => 0, true⟩ : LiveFile Nat)
      ⟨some ⟨Content.json 8, 2, 4, true⟩, true⟩ 11
      (fun s => (s + 1, some ()))).loads.getLast? = some 8 :=
  (C10_rollback_fires_observer ⟨fun _ => 1, fun _ => Nat.one_pos⟩
    ⟨9, 8, fun _ => 0, true⟩ ⟨some ⟨Content.json 8, 2, 4, true⟩, true⟩ 11
    (fun s => s + 1) () 8 rfl rfl).2

/-- C1: a transactional update whose caller function returns a failure
rolls the in-memory cache back by re-decoding the still-open handle's
on-disk contents (the default value for an empty file), returns the
failure unmodified, writes nothing to the file, and a snapshot taken after
the failed update equals the snapshot immediately before it. The
hypothesis is the coherence the claim presupposes: the cached value
matches what is durably on disk (the decoded document, or the default for
an empty or absent file). -/
theorem C1_failed_update_rolls_back {T E : Type} (c : Codec T) (lf : LiveFile T)
    (w : World T) (now : Nat) (g : T → T) (e : E)
    (hcoh : rollbackTarget w (lf.defaultFunc ()) = some lf.cached) :
    (Peek lf w).value = lf.cached ∧
    (Update c lf w now (fun s => (g s, some e))).err = some e ∧
    (Update c lf w now (fun s => (g s, some e))).lf.cached = lf.cached ∧
    (∀ f, w.file = some f →
      (Update c lf w now (fun s => (g s, some e))).w.file = some f) ∧
    (Peek (Update c lf w now (fun s => (g s, some e))).lf
      (Update c lf w now (fun s => (g s, some e))).w).value = lf.cached := by
  have hen := ensure_coherent lf w hcoh
  have h := update_failure_state c lf w now (fun s => (g s, some e)) e lf.cached rfl hcoh
  refine ⟨hen.1, h.1, h.2.1, ?_, ?_⟩
  · intro f hf
    rw [h.2.2.2.2.2.1, openCreate_some w now f hf, hf]
  · show (ensure (Update c lf w now (fun s => (g s, some e))).lf
      (Update c lf w now (fun s => (g s, some e))).w).lf.cached = lf.cached
    have hcoh2 : rollbackTarget (Update c lf w now (fun s => (g s, some e))).w
        ((Update c lf w now (fun s => (g s, some e))).lf.defaultFunc ()) =
        some ((Update c lf w now (fun s => (g s, some e))).lf.cached) := by
      rw [h.2.2.2.2.2.1, h.2.2.1, h.2.1, rollbackTarget_openCreate]
      exact hcoh
    exact (ensure_coherent _ _ hcoh2).1.trans h.2.1

/-- Witness for C1 at a concrete input: over an absent file with default
42, a failing update (which first mutates the value) returns the failure
and leaves snapshots at 42. -/
theorem C1_witness :
    (Update (⟨fun _ => 1, fun _ => Nat.one_pos⟩ : Codec Nat)
      (New (fun _ => (42 : Nat)) false) ⟨none, true⟩ 6
      (fun s => (s + 1, some ()))).err = some () ∧
    (Update (⟨fun _ => 1, fun _ => Nat.one_pos⟩ : Codec Nat)
      (New (fun _ => (42 : Nat)) false) ⟨none, true⟩ 6
      (fun s => (s + 1, some ()))).lf.cached = 42 := by
  have h := C1_failed_update_rolls_back (⟨fun _ => 1, fun _ => Nat.one_pos⟩ : Codec Nat)
    (New (fun _ => (42 : Nat)) false) ⟨none, true⟩ 6 (fun s => s + 1) () rfl
  exact ⟨h.2.1, h.2.2.1⟩

/-- C7 counterexample: the Last-Known Modification Time is not monotone
across every operation sequence. At this concrete input the controller
holds `lastModTime = 5`; a successful update whose write the filesystem
stamps with time 3 (a clock that stepped back) re-stats the file and
adopts 3 unconditionally, moving `lastModTime` backwards. -/
theorem C7_counterexample :
    (Update (⟨fun _ => 1, fun _ => Nat.one_pos⟩ : Codec Nat)
        (⟨5, 7, fun _ => 0, false⟩ : LiveFile Nat)
        ⟨some ⟨Content.json 7, 1, 5, true⟩, true⟩ 3
        (fun s => (s, (none : Option Unit)))).lf.lastModTime <
      (⟨5, 7, fun _ => 0, false⟩ : LiveFile Nat).lastModTime := by
  decide

/-- C7 amended: the reload paths only ever move the Last-Known
Modification Time forward (they adopt only strictly later modification
times), and a successful update adopts the post-write stat time
unconditionally — so across every operation sequence the time never moves
backwards provided each write's timestamp is not earlier than the
controller's current value. -/
theorem C7_lastModTime_monotone {T E : Type} (c : Codec T) (lf : LiveFile T)
    (w : World T) (now : Nat) (fn : T → T × Option E) :
    lf.lastModTime ≤ (ensure lf w).lf.lastModTime ∧
    lf.lastModTime ≤ (Peek lf w).lf.lastModTime ∧
    (lf.lastModTime ≤ now →
      lf.lastModTime ≤ (Update c lf w now fn).lf.lastModTime) := by
  refine ⟨ensure_mono lf w, ensure_mono lf w, fun hnow => ?_⟩
  cases hfv : (fn ((ensure lf w).lf.cached)).2 with
  | none =>
      rw [Update_eq_of_succeed c lf w now fn hfv]
      exact hnow
  | some e =>
      have h := Update_eq_of_fail c lf w now fn e hfv
      rw [h]
      show lf.lastModTime ≤ (forceLoad _ _).lf.lastModTime
      rw [forceLoad_lastModTime]
      exact ensure_mono lf w

/-- Witness for C7's amended statement at a concrete input: with the
write stamped at time 9, not earlier than the current value 5, the update
leaves `lastModTime` at least 5. -/
theorem C7_witness :
    (⟨5, 7, fun _ => 0, false⟩ : LiveFile Nat).lastModTime ≤
      (Update (⟨fun _ => 1, fun _ => Nat.one_pos⟩ : Codec Nat)
        (⟨5, 7, fun _ => 0, false⟩ : LiveFile Nat)
        ⟨some ⟨Content.json 7, 1, 5, true⟩, true⟩ 9
        (fun s => (s, (none : Option Unit)))).lf.lastModTime :=
  (C7_lastModTime_monotone (⟨fun _ => 1, fun _ => Nat.one_pos⟩ : Codec Nat)
    ⟨5, 7, fun _ => 0, false⟩ ⟨some ⟨Content.json 7, 1, 5, true⟩, true⟩ 9
    (fun s => (s, (none : Option Unit)))).2.2 (by decide)

/-- C8: round-trip — a transactional update that sets the cached value to
`v` and succeeds, followed by a brand-new controller instance over the
same path, snapshots to `v`: the JSON encode/decode pair is lossless for
the supported value types. The write's timestamp must be later than the
zero time a fresh controller starts from. -/
theorem C8_roundtrip {T : Type} (c : Codec T) (lf : LiveFile T) (w : World T)
    (now : Nat) (v : T) (d2 : Unit → T) (b2 : Bool) (hnow : 0 < now) :
    (Peek (New d2 b2)
      (Update c lf w now (fun _ => (v, (none : Option Unit)))).w).value = v := by
  rw [Peek]
  show (ensure (New d2 b2)
    (Update c lf w now (fun _ => (v, (none : Option Unit)))).w).lf.cached = v
  have hu := Update_eq_of_succeed c lf w now (fun _ => (v, (none : Option Unit))) rfl
  rw [hu]
  rw [ensure_some _ _ ⟨Content.json v, c.encSize v, now, true⟩ rfl]
  unfold loadIfUpdated
  rw [if_neg (Nat.pos_iff_ne_zero.mp (c.encSize_pos v)),
    if_pos (show (New d2 b2).lastModTime <
      (⟨Content.json v, c.encSize v, now, true⟩ : FileData T).modTime from hnow)]
  rfl

/-- Witness for C8 at a concrete input: write 99 at time 1, re-open with a
fresh controller defaulting to 0, and snapshot 99 back. -/
theorem C8_witness :
    (Peek (New (fun _ => (0 : Nat)) false)
      (Update (⟨fun _ => 1, fun _ => Nat.one_pos⟩ : Codec Nat)
        (New (fun _ => (0 : Nat)) false) ⟨none, true⟩ 1
        (fun _ => (99, (none : Option Unit)))).w).value = 99 :=
  C8_roundtrip (⟨fun _ => 1, fun _ => Nat.one_pos⟩ : Codec Nat)
    (New (fun _ => (0 : Nat)) false) ⟨none, true⟩ 1 99
    (fun _ => (0 : Nat)) false (by decide)

end Claims

end LiveFileModel
